import Mathlib

/-! Shallow embedding of the account-security core of the auth microservice
(`UserService` in the repository source): argon2-backed credential handling,
login lockout, the pending primary-data-change workflow and password reset,
together with theorems about the behaviour of these operations.

Persistence is modelled after MongoDB/Mongoose semantics as used by the
source: collections are lists of documents, `findOne` is `List.find?`,
`exists` is `List.any`, `countDocuments` is `List.countP`, `updateOne`
updates the first matching document, and `create`/`save` of a new document
appends it.  A query filter on a field name matches a document only when the
document actually carries that field with the given value; documents in this
service are created with an owner field named `user` and never with a field
named `userId`, so both names are carried explicitly (the latter as an
`Option` that every creation site leaves at `none`). -/

/-- Model of the node argon2 library output: the encoded hash records the
parameters, the internal salt freshly drawn by the library on each hash()
call, and the key derived deterministically from (parameters, internal salt,
input); two encoded hashes are equal exactly when all of these coincide. -/
structure Argon2Hash where
  hashLength : Nat
  memoryCost : Nat
  timeCost : Nat
  internalSalt : Nat
  derivedOf : String
deriving DecidableEq, Repr

/-- argon2.hash with explicit options: deterministic in (parameters, internal
salt, input); the library draws a fresh `internalSalt` per invocation. -/
def argon2hash (hashLength memoryCost timeCost internalSalt : Nat) (input : String) : Argon2Hash :=
  { hashLength := hashLength, memoryCost := memoryCost, timeCost := timeCost,
    internalSalt := internalSalt, derivedOf := input }

/-- argon2.verify: re-derives a key from the supplied input using the stored
hash's parameters and internal salt and compares; in the model the derived
key determines the input, so verification is comparison of inputs. -/
def argon2verify (stored : Argon2Hash) (input : String) : Bool :=
  stored.derivedOf == input

/-- UserService._generatePassword (source lines 907-920): prepends the
per-account salt to the password and hashes with argon2id, hashLength 40,
memoryCost 8192, timeCost 4.  The extra `internalSalt` argument makes the
library's per-call internal salt explicit. -/
def generatePassword (password salt : String) (internalSalt : Nat) : Argon2Hash :=
  argon2hash 40 8192 4 internalSalt (salt ++ password)

/-- A document of the User collection.  Field names follow the source; the
`userId` field is carried because two call sites filter on that name
(`verifyPrimaryDataChange`), although no creation site ever sets it. -/
structure User where
  _id : Nat
  userId : Option Nat
  email : String
  username : String
  phoneNumber : String
  password : Argon2Hash
  isActive : Bool
  isBlocked : Bool
  blockExpires : Nat
  loginAttempts : Nat
  verification : String
  verificationExpires : Nat
  firstName : String
  lastName : String
  birthday : String
  photo : String
deriving DecidableEq, Repr

/-- A document of the Vault collection; created at registration as
`{ user: user._id, salt }` (source line 93); no creation site sets a
`userId` field although `changePassword` filters on that name. -/
structure Vault where
  user : Option Nat
  userId : Option Nat
  salt : String
deriving DecidableEq, Repr

/-- A document of the Change-Primary-Data collection; created by the four
change operations as `{ user: ObjectId(userId), verification, expires, ... }`
(for example source lines 340-349); no creation site sets a `userId` field
although `changePhoneNumber`, `changePassword` and `verifyPrimaryDataChange`
filter on that name. -/
structure ChangeRequest where
  user : Option Nat
  userId : Option Nat
  verification : String
  expires : Nat
  ipOfRequest : String
  browserOfRequest : String
  fingerprintOfRequest : String
  dataType : String
  verified : Bool
deriving DecidableEq, Repr

/-- A document of the Forgot-Password collection (source lines 775-782). -/
structure ForgotPassword where
  email : String
  verification : String
  expires : Nat
  ipOfRequest : String
  browserOfRequest : String
  fingerprintOfRequest : String
deriving DecidableEq, Repr

/-- The persistent state: the four collections used by UserService. -/
structure DB where
  users : List User
  vaults : List Vault
  changeRequests : List ChangeRequest
  forgotPasswords : List ForgotPassword
deriving DecidableEq, Repr

/-- Environment-derived configuration values, already converted to numbers
(`ms(...)` durations in milliseconds). -/
structure Config where
  loginAttemptsToBlock : Nat
  hoursToBlockMs : Nat
  hoursToVerifyMs : Nat
  jwtExpirationMs : Nat
  jwtExpirationLongMs : Nat
  maximumPasswordValidations : Nat
deriving DecidableEq, Repr

/-- Mongo updateOne: update the first document matching the filter. -/
def updateFirst (p : α → Bool) (f : α → α) : List α → List α
  | [] => []
  | x :: xs => if p x then f x :: xs else x :: updateFirst p f xs

/-- Mongoose document save(): persist the mutated user document by `_id`. -/
def saveUser (db : DB) (u : User) : DB :=
  { db with users := updateFirst (fun x => x._id == u._id) (fun _ => u) db.users }

/-- Session data assembled at the start of UserService.login
(source lines 170-176). -/
structure SessionData where
  ip : String
  userAgent : String
  fingerprint : String
  expiresIn : Nat
  createdAt : Nat
deriving DecidableEq, Repr

/-- The public account view returned on success (source lines 247-256). -/
structure UserData where
  _id : Nat
  email : String
  username : String
  phoneNumber : String
  firstName : String
  lastName : String
  birthday : String
  photo : String
deriving DecidableEq, Repr

/-- Projection to the public account view. -/
def toUserData (u : User) : UserData :=
  { _id := u._id, email := u.email, username := u.username, phoneNumber := u.phoneNumber,
    firstName := u.firstName, lastName := u.lastName, birthday := u.birthday, photo := u.photo }

/-- The partial error object accumulated by login; a field is `some code`
when the corresponding key has been set on the object. -/
structure LoginError where
  email : Option String := none
  username : Option String := none
  password : Option String := none
  internalFailure : Option String := none
deriving DecidableEq, Repr

/-- UserService._isEmpty applied to the login error object: true exactly when
no key has been set. -/
def isEmptyError (e : LoginError) : Bool :=
  e.email.isNone && e.username.isNone && e.password.isNone && e.internalFailure.isNone

/-- Input to login (source lines 158-165); at most one identifier is used,
tried in the order username, phoneNumber, email. -/
structure LoginDto where
  username : Option String := none
  phoneNumber : Option String := none
  email : Option String := none
  password : String
  rememberMe : Bool := false
deriving DecidableEq, Repr

/-- Caller-visible outcome of login, mirroring the union
HttpStatus | (JWTTokens and UserData) | RpcException of the source; the
`exception` constructor models a thrown error swallowed by the catch block. -/
inductive LoginResult
  | fieldErrors (e : LoginError)
  | blocked (key : String)
  | success (u : UserData) (accessToken refreshToken : String)
  | badRequest
  | exception
deriving DecidableEq, Repr

/-- UserService.login (source lines 158-274), with the clock, the freshly
drawn randomness and the external token issuer (`mint`, returning the pair
accessToken/refreshToken, empty string for a missing token) passed
explicitly.  Faithful to the source order: the hard `isBlocked` rejection
(line 204) runs before the expired-block reset (line 212); a failed
verification increments `loginAttempts` and blocks at the configured
threshold (lines 220-235); the attempt counter is reset to 0 only inside the
branch where the issuer returned both tokens (lines 243-245). -/
def login (cfg : Config) (mint : Nat → SessionData → String × String) (now : Nat)
    (ip userAgent fingerprint : String) (dto : LoginDto) (db : DB) : LoginResult × DB :=
  let sessionData : SessionData :=
    { ip := ip, userAgent := userAgent, fingerprint := fingerprint,
      expiresIn := now + (if dto.rememberMe then cfg.jwtExpirationLongMs else cfg.jwtExpirationMs),
      createdAt := now }
  let found : Option User × LoginError :=
    match dto.username with
    | some un =>
      match db.users.find? (fun u => u.username == un) with
      | some u => (some u, {})
      | none => (none, { username := some "INVALID_USERNAME" })
    | none =>
      match dto.phoneNumber with
      | some ph =>
        match db.users.find? (fun u => u.phoneNumber == ph) with
        | some u => (some u, {})
        | none => (none, { username := some "INVALID_TEL_NUM" })
      | none =>
        match dto.email with
        | some em =>
          match db.users.find? (fun u => u.email == em) with
          | some u => (some u, {})
          | none => (none, { email := some "INVALID_EMAIL" })
        | none => (none, {})
  if !(isEmptyError found.2) then (LoginResult.fieldErrors found.2, db)
  else
    match found.1 with
    | none => (LoginResult.badRequest, db)
    | some u0 =>
      let err0 : LoginError := if u0.isActive then {} else { internalFailure := some "NOT_ACTIVE" }
      if u0.isActive && u0.isBlocked then (LoginResult.blocked "USER_HAS_BEEN_BLOCKED", db)
      else
        let cleared : User × DB :=
          if u0.isActive && (u0.blockExpires != 0) && decide (u0.blockExpires < now) then
            let uu := { u0 with isBlocked := false, blockExpires := 0 }
            (uu, saveUser db uu)
          else (u0, db)
        let u1 := cleared.1
        let db1 := cleared.2
        match db1.vaults.find? (fun v => v.user == some u1._id) with
        | none => (LoginResult.exception, db1)
        | some vlt =>
          if !(argon2verify u1.password (vlt.salt ++ dto.password)) then
            let u2 := { u1 with loginAttempts := u1.loginAttempts + 1 }
            let db2 := saveUser db1 u2
            if cfg.loginAttemptsToBlock ≤ u2.loginAttempts then
              let u3 := { u2 with
                blockExpires := now + cfg.hoursToBlockMs
                isBlocked := true
                loginAttempts := 0 }
              (LoginResult.blocked "USER_HAS_BEEN_BLOCKED", saveUser db2 u3)
            else
              (LoginResult.fieldErrors { err0 with password := some "INVALID_PASSWORD" }, db2)
          else
            if !(isEmptyError err0) then (LoginResult.fieldErrors err0, db1)
            else
              let minted := mint u1._id sessionData
              if minted.1 != "" && minted.2 != "" then
                let u4 := { u1 with loginAttempts := 0 }
                (LoginResult.success (toUserData u1) minted.1 minted.2, saveUser db1 u4)
              else (LoginResult.badRequest, db1)

/-- Caller-visible outcome of the change operations (changeEmail,
changeUsername, changePhoneNumber, changePassword): validation errors on the
old/new value, the blocked-or-pending rejection (the RpcException with key
USER_HAS_BEEN_BLOCKED and the message asking to verify the previous data
change first), the dispatched notification on success, or a swallowed
exception. -/
inductive ChangeResult
  | fieldErrors (oldErr newErr : Option String)
  | blockedPending
  | sent (verificationCode email mailType : String)
  | exception
deriving DecidableEq, Repr

/-- UserService.changeEmail (source lines 288-363).  Validation checks that
some account has the old email and none has the new one; the guard rejects
when the account is blocked or `countDocuments({user: ObjectId(userId),
verified: false})` is nonzero; then the account is tentatively updated
(filter `{_id, email: oldEmail, isActive: true}`) with the new email, the
block and the absolute expiry times, and a Change-Primary-Data document is
created whose `expires` field receives the raw `ms(HOURS_TO_VERIFY)`
duration (line 343). -/
def changeEmail (cfg : Config) (now : Nat) (freshToken : String) (userId : Nat)
    (oldEmail newEmail ip userAgent fingerprint : String) (db : DB) : ChangeResult × DB :=
  let errOld : Option String :=
    if db.users.any (fun u => u.email == oldEmail) then none
    else some "OLD_EMAIL_DOES_NOT_MATCH"
  let errNew : Option String :=
    if db.users.any (fun u => u.email == newEmail) then some "EMAIL_ALREADY_EXISTS" else none
  if errOld.isSome || errNew.isSome then (ChangeResult.fieldErrors errOld errNew, db)
  else
    match db.users.find? (fun u => u._id == userId && u.isActive) with
    | none => (ChangeResult.exception, db)
    | some userRecord =>
      let userChangeRequests :=
        db.changeRequests.countP (fun d => d.user == some userId && d.verified == false)
      if userRecord.isBlocked || userChangeRequests != 0 then (ChangeResult.blockedPending, db)
      else
        let users2 := updateFirst
          (fun u => u._id == userId && u.email == oldEmail && u.isActive)
          (fun u => { u with
            email := newEmail
            isBlocked := true
            verificationExpires := now + cfg.hoursToVerifyMs
            blockExpires := now + cfg.hoursToVerifyMs
            verification := freshToken }) db.users
        let req : ChangeRequest :=
          { user := some userId, userId := none, verification := freshToken,
            expires := cfg.hoursToVerifyMs, ipOfRequest := ip, browserOfRequest := userAgent,
            fingerprintOfRequest := fingerprint, dataType := "email", verified := false }
        (ChangeResult.sent freshToken newEmail "VERIFY_EMAIL_CHANGE",
         { db with users := users2, changeRequests := db.changeRequests ++ [req] })

/-- UserService.changePhoneNumber (source lines 441-513).  Faithful to two
slips in the source: the new phone number is checked against existing
EMAILS (line 459 calls _isExistingEmail on it), and the pending-request
guard counts `{userId, verified: false}` (line 467) although the documents
are created with the owner stored under the field `user`, so the count never
sees them. -/
def changePhoneNumber (cfg : Config) (now : Nat) (freshToken : String) (userId : Nat)
    (oldPhoneNumber newPhoneNumber ip userAgent fingerprint : String) (db : DB) :
    ChangeResult × DB :=
  let errOld : Option String :=
    if db.users.any (fun u => u.phoneNumber == oldPhoneNumber) then none
    else some "OLD_TEL_NUM_DOES_NOT_MATCH"
  let errNew : Option String :=
    if db.users.any (fun u => u.email == newPhoneNumber) then some "TEL_NUM_ALREADY_EXISTS"
    else none
  if errOld.isSome || errNew.isSome then (ChangeResult.fieldErrors errOld errNew, db)
  else
    match db.users.find? (fun u => u._id == userId && u.isActive) with
    | none => (ChangeResult.exception, db)
    | some userRecord =>
      let userChangeRequests :=
        db.changeRequests.countP (fun d => d.userId == some userId && d.verified == false)
      if userRecord.isBlocked || userChangeRequests != 0 then (ChangeResult.blockedPending, db)
      else
        let users2 := updateFirst
          (fun u => u._id == userId && u.phoneNumber == oldPhoneNumber && u.isActive)
          (fun u => { u with
            phoneNumber := newPhoneNumber
            isBlocked := true
            verificationExpires := now + cfg.hoursToVerifyMs
            blockExpires := now + cfg.hoursToVerifyMs
            verification := freshToken }) db.users
        let req : ChangeRequest :=
          { user := some userId, userId := none, verification := freshToken,
            expires := cfg.hoursToVerifyMs, ipOfRequest := ip, browserOfRequest := userAgent,
            fingerprintOfRequest := fingerprint, dataType := "phone", verified := false }
        (ChangeResult.sent freshToken userRecord.email "VERIFY_PHONE_CHANGE",
         { db with users := users2, changeRequests := db.changeRequests ++ [req] })

/-- Caller-visible outcome of verifyPrimaryDataChange: the refreshed public
account view, BAD_REQUEST when no matching unverified request is found, or a
swallowed exception. -/
inductive VerifyChangeResult
  | ok (u : UserData)
  | badRequest
  | exception
deriving DecidableEq, Repr

/-- UserService.verifyPrimaryDataChange (source lines 590-641).  All three
store accesses filter on a field named `userId` (lines 601, 608, 611):
the existence check on the Change-Primary-Data collection, the user update
that clears the block, and the update flipping `verified`.  User documents
key their identity as `_id` and change-request documents store their owner
under `user`, so these filters are compared against the documents' actual
`userId` fields. -/
def verifyPrimaryDataChange (userId : Nat) (verification dataType : String) (db : DB) :
    VerifyChangeResult × DB :=
  let requestExists := db.changeRequests.any (fun d =>
    d.userId == some userId && d.verification == verification &&
    d.dataType == dataType && d.verified == false)
  if requestExists then
    let users2 := updateFirst (fun u => u.userId == some userId)
      (fun u => { u with
        isBlocked := false
        verification := ""
        verificationExpires := 0
        blockExpires := 0 }) db.users
    let reqs2 := updateFirst (fun d =>
        d.userId == some userId && d.verification == verification && d.dataType == dataType)
      (fun d => { d with verified := true }) db.changeRequests
    let db2 : DB := { db with users := users2, changeRequests := reqs2 }
    match db2.users.find? (fun u => u._id == userId && u.isActive) with
    | some u => (VerifyChangeResult.ok (toUserData u), db2)
    | none => (VerifyChangeResult.exception, db2)
  else (VerifyChangeResult.badRequest, db)

/-- Caller-visible outcome of verifyPasswordReset: HttpStatus.OK, the
PASSWORDS_DOES_NOT_MATCH RpcException, BAD_REQUEST when no Forgot-Password
document carries the token, or a swallowed exception. -/
inductive ResetResult
  | okStatus
  | passwordsDoNotMatch
  | badRequest
  | exception
deriving DecidableEq, Repr

/-- UserService.verifyPasswordReset (source lines 799-838).  The existence
check matches the Forgot-Password collection on the verification token alone
(lines 807-809); the overwritten account is then looked up solely by the
caller-supplied email (line 815); the stored request's own email is never
read.  The fresh per-account salt and the argon2 internal salt are passed
explicitly. -/
def verifyPasswordReset (freshSalt : String) (internalSalt : Nat) (email : String)
    (verification newPassword newPasswordVerification : String) (db : DB) : ResetResult × DB :=
  let forgotExists := db.forgotPasswords.any (fun f => f.verification == verification)
  if forgotExists then
    if newPassword == newPasswordVerification then
      match db.users.find? (fun u => u.email == email) with
      | none => (ResetResult.exception, db)
      | some user =>
        let newHash := generatePassword newPassword freshSalt internalSalt
        let users2 := updateFirst (fun u => u._id == user._id)
          (fun u => { u with password := newHash }) db.users
        let vaults2 := updateFirst (fun v => v.user == some user._id)
          (fun v => { v with salt := freshSalt }) db.vaults
        (ResetResult.okStatus, { db with users := users2, vaults := vaults2 })
    else (ResetResult.passwordsDoNotMatch, db)
  else (ResetResult.badRequest, db)

/-- The value a call of _validatePasswordUniqueness produces: `retTrue` and
`retFalse` for the explicit returns, `undef` for the fall-through after the
recursive call whose result is discarded (source line 892: the recursion's
value is awaited but not returned, so the enclosing call yields undefined). -/
inductive UniqValue
  | retTrue
  | retFalse
  | undef
deriving DecidableEq, Repr

/-- UserService._validatePasswordUniqueness (source lines 885-905), as a
fuel-indexed evaluator.  `hashExists k` tells whether the k-th freshly
salted hash already occurs in storage; `counter` is the shared instance
field `this.counter` (source line 65), which the body compares against the
configured maximum and resets to 0 but never increments; `k` is the index of
the next salt to draw.  The result is `none` when `fuel` nested calls did
not suffice to return (the call is still running at that depth), otherwise
the returned value together with the `counter` field and next salt index
after the call. -/
def validatePasswordUniqueness (maxValidations : Nat) (hashExists : Nat → Bool) :
    Nat → Nat → Nat → Option (UniqValue × Nat × Nat)
  | 0, _, _ => none
  | fuel + 1, counter, k =>
    if counter ≤ maxValidations then
      if hashExists k then
        match validatePasswordUniqueness maxValidations hashExists fuel counter (k + 1) with
        | none => none
        | some (_, counter2, k2) => some (UniqValue.undef, counter2, k2)
      else some (UniqValue.retTrue, 0, k + 1)
    else some (UniqValue.retFalse, 0, k + 1)

/-- A configuration with representative concrete durations. -/
def cfgX : Config :=
  { loginAttemptsToBlock := 5, hoursToBlockMs := 86400000, hoursToVerifyMs := 3600000,
    jwtExpirationMs := 900000, jwtExpirationLongMs := 604800000, maximumPasswordValidations := 5 }

/-- A configuration with symbolic lockout threshold and lockout duration. -/
def cfgT (t d : Nat) : Config :=
  { loginAttemptsToBlock := t, hoursToBlockMs := d, hoursToVerifyMs := 0,
    jwtExpirationMs := 0, jwtExpirationLongMs := 0, maximumPasswordValidations := 0 }

/-- A configuration with a symbolic verification window. -/
def cfgV (w : Nat) : Config :=
  { loginAttemptsToBlock := 5, hoursToBlockMs := 0, hoursToVerifyMs := w,
    jwtExpirationMs := 0, jwtExpirationLongMs := 0, maximumPasswordValidations := 0 }

/-- A token issuer that returns both tokens. -/
def mintOk : Nat → SessionData → String × String := fun _ _ => ("acc", "ref")

/-- A token issuer that fails to return either token. -/
def mintFail : Nat → SessionData → String × String := fun _ _ => ("", "")

/-- A representative active, unblocked account (id 2) whose password is "pw"
under the vault salt "s0". -/
def baseUser : User :=
  { _id := 2, userId := none, email := "u@x", username := "uu", phoneNumber := "222",
    password := generatePassword "pw" "s0" 7, isActive := true, isBlocked := false,
    blockExpires := 0, loginAttempts := 0, verification := "", verificationExpires := 0,
    firstName := "f", lastName := "l", birthday := "b", photo := "p" }

/-- A second account (id 1) with email a@x. -/
def userAlice : User :=
  { baseUser with
    _id := 1
    email := "a@x"
    username := "au"
    phoneNumber := "111"
    password := generatePassword "pa" "sa" 3 }

/-- The vault of account 2, as created at registration. -/
def vaultU : Vault := { user := some 2, userId := none, salt := "s0" }

/-- The vault of account 1, as created at registration. -/
def vaultA : Vault := { user := some 1, userId := none, salt := "sa" }

/-- Login input with account 2's correct password. -/
def dtoOk : LoginDto := { email := some "u@x", password := "pw" }

/-- Login input with a wrong password for account 2. -/
def dtoWrong : LoginDto := { email := some "u@x", password := "ww" }

/-- Account 2 with a given prior failed-login count. -/
def userN (n : Nat) : User := { baseUser with loginAttempts := n }

/-- A state holding account 2 (with a given failed-login count) and its vault. -/
def dbN (n : Nat) : DB :=
  { users := [userN n], vaults := [vaultU], changeRequests := [], forgotPasswords := [] }

/-- A state where account 2 is blocked with a block that has already expired
by any clock value above 5. -/
def dbBlockedExpired : DB :=
  { users := [{ baseUser with isBlocked := true, blockExpires := 5 }], vaults := [vaultU],
    changeRequests := [], forgotPasswords := [] }

/-- A state with accounts 1 and 2 and no pending requests. -/
def dbTwo : DB :=
  { users := [userAlice, baseUser], vaults := [vaultU], changeRequests := [],
    forgotPasswords := [] }

/-- The state after account 2 requests an email change quoting account 1's
email as the old value: validation passes (the old-value check is a global
existence check), an unverified change request for account 2 is created, but
the tentative account update filter matches nothing, so account 2 stays
unblocked. -/
def dbAfterEmailChange : DB := (changeEmail cfgX 100 "tok1" 2 "a@x" "c@x" "i" "a" "f" dbTwo).2

/-- A state holding only account 2 and its vault. -/
def dbOne : DB :=
  { users := [baseUser], vaults := [vaultU], changeRequests := [], forgotPasswords := [] }

/-- The change-request document created by a validated changeEmail call for
account 2: its expires field holds the raw verification-window duration. -/
def emailReqDoc (tok : String) (w : Nat) (ip ua fp : String) : ChangeRequest :=
  { user := some 2, userId := none, verification := tok, expires := w, ipOfRequest := ip,
    browserOfRequest := ua, fingerprintOfRequest := fp, dataType := "email", verified := false }

/-- Account 2 after a validated changeEmail tentatively applied the new email
and the block with absolute expiry `e`. -/
def userAfterEmailChange (tok : String) (e : Nat) : User :=
  { baseUser with
    email := "c@x"
    isBlocked := true
    verificationExpires := e
    blockExpires := e
    verification := tok }

/-- A forgot-password document issued for account 1's email a@x. -/
def fpDoc (tok : String) : ForgotPassword :=
  { email := "a@x", verification := tok, expires := 9, ipOfRequest := "i",
    browserOfRequest := "a", fingerprintOfRequest := "f" }

/-- A state with both accounts and a pending password-reset request for a@x. -/
def dbForgot : DB :=
  { users := [userAlice, baseUser], vaults := [vaultU], changeRequests := [],
    forgotPasswords := [fpDoc "t"] }

/-- A state with both accounts, both vaults, and a password-reset request
issued for account 1's email a@x carrying the given token. -/
def dbCross (tok : String) : DB :=
  { users := [userAlice, baseUser], vaults := [vaultA, vaultU], changeRequests := [],
    forgotPasswords := [fpDoc tok] }

/-- Account 2 as left by the failed login that crossed the threshold at
clock 50 with lockout duration 60. -/
def userN4Locked : User :=
  { userN 4 with
    blockExpires := 50 + 60
    isBlocked := true
    loginAttempts := 0 }

/-- Account 2 as left by a below-threshold failed login starting from one
prior failed attempt. -/
def userN1Failed : User := { userN 1 with loginAttempts := 1 + 1 }

/-- Claim C1: the claim states that an account with an existing unverified
PendingChangeRequest has any further change request rejected with
PendingVerificationExistsError, keeping at most one unverified request per
account.  The code violates this: starting from `dbAfterEmailChange`, where
account 2 has one unverified request and is not blocked, a phone-number
change for account 2 is accepted (the notification is dispatched) and a
second unverified request for account 2 is created, because the
pending-request guard of changePhoneNumber counts documents by a `userId`
field that no created request carries. -/
theorem c1_second_change_request_not_rejected :
    dbAfterEmailChange.changeRequests.countP
        (fun d => d.user == some 2 && d.verified == false) = 1 ∧
    ((dbAfterEmailChange.users.find? (fun u => u._id == 2)).map (fun u => u.isBlocked))
        = some false ∧
    (changePhoneNumber cfgX 200 "tok2" 2 "222" "333" "i" "a" "f" dbAfterEmailChange).1
        = ChangeResult.sent "tok2" "u@x" "VERIFY_PHONE_CHANGE" ∧
    ((changePhoneNumber cfgX 200 "tok2" 2 "222" "333" "i" "a" "f"
        dbAfterEmailChange).2.changeRequests.countP
          (fun d => d.user == some 2 && d.verified == false)) = 2 := by decide

/-- Claim C2: the claim states that a login on a blocked account whose block
has already expired first lazily unblocks the account and then proceeds.
The code instead returns the USER_HAS_BEEN_BLOCKED RpcException and leaves
the account blocked: the hard `isBlocked` rejection (source line 204) runs
before the expired-block reset (source line 212), so the reset branch can
only ever execute when `isBlocked` is already false. -/
theorem c2_expired_block_login_still_rejected :
    (dbBlockedExpired.users.map (fun u => (u.isBlocked, u.blockExpires))) = [(true, 5)] ∧
    (5 : Nat) < 10 ∧
    login cfgX mintOk 10 "i" "a" "f" dtoOk dbBlockedExpired
      = (LoginResult.blocked "USER_HAS_BEEN_BLOCKED", dbBlockedExpired) :=
  ⟨rfl, by decide, rfl⟩

/-- Claim C3: a failed login that raises the attempt count to the configured
threshold blocks the account with blockExpires = now + the configured
lockout duration, resets the count to 0 and yields the blocked error, while
a failed login below the threshold only increments the count and yields the
invalid-password field error.  Proved for an active, unblocked account with
an arbitrary prior count, threshold, lockout duration and clock. -/
theorem c3_failed_login_threshold_lockout (n t d now : Nat) :
    (n + 1 = t →
      login (cfgT t d) mintOk now "i" "a" "f" dtoWrong (dbN n)
        = (LoginResult.blocked "USER_HAS_BEEN_BLOCKED",
           { users := [{ userN n with
               blockExpires := now + d
               isBlocked := true
               loginAttempts := 0 }],
             vaults := [vaultU], changeRequests := [], forgotPasswords := [] })) ∧
    (n + 1 < t →
      login (cfgT t d) mintOk now "i" "a" "f" dtoWrong (dbN n)
        = (LoginResult.fieldErrors { password := some "INVALID_PASSWORD" },
           { users := [{ userN n with loginAttempts := n + 1 }],
             vaults := [vaultU], changeRequests := [], forgotPasswords := [] })) := by
  constructor
  · intro h
    subst h
    simp [login, dbN, userN, baseUser, vaultU, dtoWrong, cfgT, mintOk, saveUser,
      updateFirst, isEmptyError, argon2verify, generatePassword, argon2hash]
  · intro h
    simp [login, dbN, userN, baseUser, vaultU, dtoWrong, cfgT, mintOk, saveUser,
      updateFirst, isEmptyError, argon2verify, generatePassword, argon2hash,
      Nat.not_le.mpr h]

/-- Claim C3 witness: the lockout theorem applied at prior count 4 with
threshold 5 (reaching the threshold) and at prior count 1 (below it), with
lockout duration 60 and clock 50. -/
theorem c3_failed_login_threshold_lockout_witness :
    login (cfgT 5 60) mintOk 50 "i" "a" "f" dtoWrong (dbN 4)
      = (LoginResult.blocked "USER_HAS_BEEN_BLOCKED",
         { users := [userN4Locked], vaults := [vaultU], changeRequests := [],
           forgotPasswords := [] }) ∧
    login (cfgT 5 60) mintOk 50 "i" "a" "f" dtoWrong (dbN 1)
      = (LoginResult.fieldErrors { password := some "INVALID_PASSWORD" },
         { users := [userN1Failed], vaults := [vaultU], changeRequests := [],
           forgotPasswords := [] }) :=
  ⟨(c3_failed_login_threshold_lockout 4 5 60 50).1 (by decide),
   (c3_failed_login_threshold_lockout 1 5 60 50).2 (by decide)⟩

/-- Claim C4: the claim states that redeeming a matching unverified
PendingChangeRequest with the correct token and kind flips its verified flag
and clears the account's block.  The code can never do so: its existence
check (and both updates) filter on a field named `userId`, and for every
state whose change-request documents were produced by the creation sites of
this service (which store the owner under `user` and never set `userId`) the
redeem returns BAD_REQUEST and leaves the state untouched, whatever token
and kind are presented. -/
theorem c4_redeem_always_bad_request (db : DB) (uid : Nat) (tok dt : String)
    (h : ∀ r ∈ db.changeRequests, r.userId = none) :
    verifyPrimaryDataChange uid tok dt db = (VerifyChangeResult.badRequest, db) := by
  have hany : db.changeRequests.any (fun d =>
      d.userId == some uid && d.verification == tok &&
      d.dataType == dt && d.verified == false) = false := by
    rw [List.any_eq_false]
    intro d hd
    simp [h d hd]
  simp only [verifyPrimaryDataChange, hany]
  simp

/-- Claim C4 witness: after account 2's email change created the unverified
request with token tok1 and kind email, redeeming with exactly that account,
token and kind still yields BAD_REQUEST and changes nothing. -/
theorem c4_redeem_always_bad_request_witness :
    verifyPrimaryDataChange 2 "tok1" "email" dbAfterEmailChange
      = (VerifyChangeResult.badRequest, dbAfterEmailChange) :=
  c4_redeem_always_bad_request dbAfterEmailChange 2 "tok1" "email" (by decide)

/-- Claim C5: the claim states that the password-uniqueness check terminates
after at most the configured number of re-salt attempts, returning false
when the budget is exhausted.  The code never increments its counter, so
against a store in which every freshly salted hash already exists the call
recurses unboundedly: starting from the counter's resting value 0 it
produces no result at any recursion depth, for every configured maximum and
every salt position. -/
theorem c5_uniqueness_check_never_returns (maxV fuel k : Nat) :
    validatePasswordUniqueness maxV (fun _ => true) fuel 0 k = none := by
  induction fuel generalizing k with
  | zero => rfl
  | succ n ih => simp [validatePasswordUniqueness, ih]

/-- Claim C6 counterexample: the claim states that hash(secret, salt) is
deterministic across invocations with the same secret and salt.  Two
invocations differing only in the internal salt freshly drawn by the argon2
library produce different encoded hashes. -/
theorem c6_hash_not_deterministic :
    generatePassword "pw" "s" 0 ≠ generatePassword "pw" "s" 1 := by decide

/-- Claim C6 as amended: hash(secret, salt) applies the memory-hard
derivation with output length 40, memory cost 8192 and time cost 4 to the
salt prepended to the secret, deterministically in (secret, salt, internal
salt); the resulting hash verifies against the salt-prepended secret. -/
theorem c6_hash_fixed_params_modulo_internal_salt (password salt : String) (isalt : Nat) :
    generatePassword password salt isalt = argon2hash 40 8192 4 isalt (salt ++ password) ∧
    argon2verify (generatePassword password salt isalt) (salt ++ password) = true :=
  ⟨rfl, by simp [argon2verify, generatePassword, argon2hash]⟩

/-- Claim C7 counterexample: the claim states that a successful secret
verification resets the attempt count regardless of the outcome of token
minting.  With 3 prior failed attempts and an issuer that returns no
tokens, the login returns BAD_REQUEST and the stored count remains 3. -/
theorem c7_reset_skipped_on_mint_failure :
    (login cfgX mintFail 50 "i" "a" "f" dtoOk (dbN 3)).1 = LoginResult.badRequest ∧
    ((login cfgX mintFail 50 "i" "a" "f" dtoOk (dbN 3)).2.users.map
        (fun u => u.loginAttempts)) = [3] :=
  ⟨rfl, rfl⟩

/-- Claim C7 as amended: a successful login resets the attempt count to 0
regardless of its prior value, provided the token issuer returns both
tokens; the reset happens only inside that branch. -/
theorem c7_success_resets_attempts (n : Nat) :
    (login cfgX mintOk 50 "i" "a" "f" dtoOk (dbN n)).1
        = LoginResult.success (toUserData (userN n)) "acc" "ref" ∧
    ((login cfgX mintOk 50 "i" "a" "f" dtoOk (dbN n)).2.users.map
        (fun u => u.loginAttempts)) = [0] :=
  ⟨rfl, rfl⟩

/-- Claim C8 counterexample: the claim states that the created
PendingChangeRequest stores an absolute expiry now + window.  With clock
1000 and window 50, the validated email change stores 50 (the raw window
duration) on the request — not 1050 — while writing the absolute 1050 to
the account's two expiry fields. -/
theorem c8_request_expiry_not_absolute :
    ((changeEmail (cfgV 50) 1000 "t" 2 "u@x" "c@x" "i" "a" "f" dbOne).2.changeRequests.map
        (fun d => d.expires)) = [50] ∧
    ¬ (((changeEmail (cfgV 50) 1000 "t" 2 "u@x" "c@x" "i" "a" "f" dbOne).2.changeRequests.map
        (fun d => d.expires)) = [1000 + 50]) ∧
    ((changeEmail (cfgV 50) 1000 "t" 2 "u@x" "c@x" "i" "a" "f" dbOne).2.users.map
        (fun u => (u.verificationExpires, u.blockExpires))) = [(1050, 1050)] := by decide

/-- Claim C8 as amended: a validated email change creates the
PendingChangeRequest with verified = false and an expiry equal to the
verification window as a relative duration, while the account receives the
same absolute instant now + window in both blockExpires and
verificationExpires, for every clock, window, token and request metadata. -/
theorem c8_request_relative_account_absolute_expiry (now w : Nat) (tok ip ua fp : String) :
    changeEmail (cfgV w) now tok 2 "u@x" "c@x" ip ua fp dbOne
      = (ChangeResult.sent tok "c@x" "VERIFY_EMAIL_CHANGE",
         { users := [userAfterEmailChange tok (now + w)],
           vaults := [vaultU],
           changeRequests := [emailReqDoc tok w ip ua fp],
           forgotPasswords := [] }) := rfl

/-- Claim C9 counterexample: the claim states that every password-reset
redeem with mismatched secrets is rejected with SecretMismatchError.  When
no ForgotPasswordRequest matches the token, a mismatched call is rejected
with the generic BAD_REQUEST instead (state still unchanged). -/
theorem c9_mismatch_without_request_not_secret_mismatch :
    verifyPasswordReset "ns" 4 "u@x" "t" "p1" "p2" dbOne = (ResetResult.badRequest, dbOne) ∧
    ResetResult.badRequest ≠ ResetResult.passwordsDoNotMatch := by decide

/-- Claim C9 as amended: every password-reset redeem for which a
ForgotPasswordRequest matching the token exists and whose two secrets
differ is rejected with the PASSWORDS_DOES_NOT_MATCH error, with the whole
state — in particular every account credential and vault salt — unchanged:
the mismatch check precedes every write. -/
theorem c9_mismatch_rejected_state_unchanged (db : DB) (freshSalt : String) (isalt : Nat)
    (email tok p1 p2 : String)
    (hex : db.forgotPasswords.any (fun f => f.verification == tok) = true)
    (hne : p1 ≠ p2) :
    verifyPasswordReset freshSalt isalt email tok p1 p2 db
      = (ResetResult.passwordsDoNotMatch, db) := by
  simp only [verifyPasswordReset, hex]
  simp [hne]

/-- Claim C9 witness: the amended theorem applied to a state holding a
pending reset request with token t and a call presenting differing
secrets. -/
theorem c9_mismatch_rejected_state_unchanged_witness :
    verifyPasswordReset "ns" 4 "u@x" "t" "p1" "p2" dbForgot
      = (ResetResult.passwordsDoNotMatch, dbForgot) :=
  c9_mismatch_rejected_state_unchanged dbForgot "ns" 4 "u@x" "t" "p1" "p2"
    (by decide) (by decide)

/-- Claim C10: the reset-redeem existence check matches on the token alone
and the rewritten account is selected solely by the caller-supplied email,
never compared with the email stored on the request: a reset token issued
for account 1's email a@x, redeemed together with account 2's email u@x,
succeeds and overwrites account 2's credential and vault salt (account 1
untouched), for every token, new secret and fresh salt. -/
theorem c10_cross_email_credential_overwrite (tok p freshSalt : String) (isalt : Nat) :
    verifyPasswordReset freshSalt isalt "u@x" tok p p (dbCross tok)
      = (ResetResult.okStatus,
         { users := [userAlice, { baseUser with password := generatePassword p freshSalt isalt }],
           vaults := [vaultA, { vaultU with salt := freshSalt }],
           changeRequests := [],
           forgotPasswords := [fpDoc tok] }) := by
  simp [verifyPasswordReset, dbCross, fpDoc, userAlice, baseUser, vaultA, vaultU, updateFirst]
